import Mathlib

set_option maxRecDepth 8000

/-!
Shallow embedding of the token-cache / authentication layer
(`src/mcp-servers/rdp_auth.py`), the news tools
(`src/mcp-servers/news-server.py`) and the WebSocket relay loop of
`src/chat_app.py`, together with theorems settling the frozen claims
about the specification.

Conventions of the embedding:
* Python `Optional[str]` values are `Option String`; Python truthiness of a
  string option (`None` and `""` are falsy) is `optTruthy`.
* `datetime` values are integer timestamps (`Int`, seconds); `timedelta`
  addition is integer addition.
* The token-cache file is a `StorageState`: missing, unreadable/corrupt, or
  present with a parsed entry.  File I/O and HTTP are the only effects; each
  HTTP call's outcome (exception raised, or a response with a status and a
  parsed JSON body) is an explicit input of the model.
* Python exceptions are `Except String` values; a `try`/`except` block is a
  `match` on the embedded try-block result.
-/

namespace NewsMCP

/-- Truthiness of a Python `Optional[str]`: `None` and `""` are falsy. -/
def optTruthy : Option String → Bool
  | none => false
  | some s => s != ""

/-- Entry of the token cache file: the three keys written by
`_save_token_cache` and defaulted by `_load_token_cache`
(`access_token`, `expires_at`, `refresh_token`). -/
structure TokenCacheEntry where
  access_token : Option String
  expires_at : Option Int
  refresh_token : Option String

/-- Entry with all three fields `None`, as returned by `_load_token_cache`
when the file is missing or unreadable. -/
def empty_entry : TokenCacheEntry :=
  { access_token := none, expires_at := none, refresh_token := none }

/-- State of the cache file `CACHE_FILE`: absent, present but raising on
read/parse (`json.load` or `datetime.fromisoformat` fails), or present with
a parsed entry. -/
inductive StorageState where
  | missing
  | corrupt
  | present (entry : TokenCacheEntry)

/-- Body of the `try` block of `_load_token_cache`: `some entry` when the
file exists and parses, `none` when the file does not exist (the block falls
through without returning), `.error` when reading or parsing raises. -/
def load_cache_try_block : StorageState → Except String (Option TokenCacheEntry)
  | .present entry => .ok (some entry)
  | .missing => .ok none
  | .corrupt => .error "Failed to load token cache"

/-- Model of `_load_token_cache`: the exception from the try block is caught
and logged, and the function returns the all-`None` entry both on a missing
file and on a raised exception.  The `Except` result type records that the
caller can observe an escaping exception; the function never produces one. -/
def load_token_cache (s : StorageState) : Except String TokenCacheEntry :=
  match load_cache_try_block s with
  | .ok (some entry) => .ok entry
  | .ok none => .ok empty_entry
  | .error _ => .ok empty_entry

/-- Model of `_get_token_cache`: loads from the file on every call. -/
def get_token_cache (s : StorageState) : TokenCacheEntry :=
  match load_token_cache s with
  | .ok entry => entry
  | .error _ => empty_entry

/-- Body of the `try` block of `_save_token_cache`: serialization plus the
file write, which either replaces the stored record or raises. -/
def save_cache_try_block (write_ok : Bool) (_s : StorageState)
    (entry : TokenCacheEntry) : Except String StorageState :=
  if write_ok then .ok (.present entry) else .error "Failed to save token cache"

/-- Model of `_save_token_cache`: a write failure is caught and logged, never
propagated; on failure the stored state is unchanged. -/
def save_token_cache (write_ok : Bool) (s : StorageState)
    (entry : TokenCacheEntry) : Except String StorageState :=
  match save_cache_try_block write_ok s entry with
  | .ok s2 => .ok s2
  | .error _ => .ok s

/-- Storage state after a `_save_token_cache` call (which never raises). -/
def do_save (write_ok : Bool) (s : StorageState) (entry : TokenCacheEntry) :
    StorageState :=
  match save_token_cache write_ok s entry with
  | .ok s2 => s2
  | .error _ => s

/-- Model of `clear_token_cache`: best-effort delete of the cache file. -/
def clear_token_cache (_s : StorageState) : StorageState := .missing

/-- The three environment credentials `RDP_USERNAME`, `RDP_PASSWORD`,
`RDP_CLIENT_ID` (unset environment variables are `None`). -/
structure Creds where
  username : Option String
  password : Option String
  client_id : Option String

/-- Model of `check_credentials`: collects the names of missing credentials
and returns `False` when any is missing. -/
def check_credentials (c : Creds) : Bool :=
  let missing :=
    (if optTruthy c.username = false then ["RDP_USERNAME"] else []) ++
    (if optTruthy c.password = false then ["RDP_PASSWORD"] else []) ++
    (if optTruthy c.client_id = false then ["RDP_CLIENT_ID"] else [])
  if missing.isEmpty = false then false else true

/-- JSON value found under the `expires_in` key of a token response:
an integer, a string, JSON `null`, or some other non-coercible value
(list/object).  JSON floats are not modelled. -/
inductive JsonVal where
  | jint (n : Int)
  | jstr (s : String)
  | jnull
  | jother

/-- Model of Python `int(str)`: optional surrounding spaces, an optional
sign, then a non-empty run of decimal digits; anything else raises
`ValueError` (modelled as `none`). -/
def pyParseIntChars (l : List Char) : Option Int :=
  match l with
  | '-' :: rest =>
      if rest ≠ [] ∧ rest.all Char.isDigit then
        some (-(rest.foldl (fun a c => a * 10 + (c.toNat - 48)) 0 : Int))
      else none
  | '+' :: rest =>
      if rest ≠ [] ∧ rest.all Char.isDigit then
        some ((rest.foldl (fun a c => a * 10 + (c.toNat - 48)) 0 : Int))
      else none
  | rest =>
      if rest ≠ [] ∧ rest.all Char.isDigit then
        some ((rest.foldl (fun a c => a * 10 + (c.toNat - 48)) 0 : Int))
      else none

/-- Model of Python `int()` applied to a string, spaces stripped first. -/
def pyParseInt (s : String) : Option Int :=
  pyParseIntChars ((s.data.dropWhile (fun c => c = ' ')).reverse.dropWhile
    (fun c => c = ' ')).reverse

/-- Model of `expires_in = data.get("expires_in", 3600)` followed by
`int(expires_in)` with `ValueError`/`TypeError` caught and replaced by the
default `3600`. -/
def coerce_expires_in : Option JsonVal → Int
  | none => 3600
  | some (.jint n) => n
  | some (.jstr s) =>
      match pyParseInt s with
      | some n => n
      | none => 3600
  | some .jnull => 3600
  | some .jother => 3600

/-- Parsed JSON body of a token-endpoint response.  `refresh_token` is
doubly optional: the outer layer records whether the key is present, the
inner layer its value (JSON `null` gives `none`). -/
structure AuthBody where
  access_token : Option String
  expires_in : Option JsonVal
  refresh_token : Option (Option String)

/-- Outcome of one `client.post` to the token endpoint: the call (or the
subsequent `.json()` parse) raises, or a response with a status code and a
parsed body arrives. -/
inductive NetOutcome where
  | raises (e : String)
  | responds (status : Nat) (body : AuthBody)

/-- World state a token-acquisition call runs in: the current time, the
configured credentials, whether a cache write would succeed, and the
outcomes the network would produce for a password-grant call and for a
refresh-grant call. -/
structure AuthEnv where
  now : Int
  creds : Creds
  save_ok : Bool
  auth_net : NetOutcome
  refresh_net : NetOutcome

/-- Kind of network call made by the auth layer. -/
inductive NetCall where
  | fullAuth
  | refresh

/-- Observable outcome of a token-acquisition function: the returned token
(`None` on failure), the resulting cache-file state, and the ordered list of
network calls made. -/
structure AuthResult where
  token : Option String
  storage : StorageState
  calls : List NetCall

/-- Result with one extra network call recorded in front. -/
def prepend_call (c : NetCall) (r : AuthResult) : AuthResult :=
  { r with calls := c :: r.calls }

/-- The cached-token validity test shared by `get_auth_token` and
`get_valid_token`: `access_token` truthy, `expires_at` set, and
`datetime.now() < expires_at`. -/
def cache_hit (entry : TokenCacheEntry) (now : Int) : Bool :=
  optTruthy entry.access_token &&
    (match entry.expires_at with
     | some t => decide (now < t)
     | none => false)

/-- Model of `httpx.Response.raise_for_status` not raising: 2xx status. -/
def httpSuccess (status : Nat) : Bool := 200 ≤ status && status < 300

/-- Model of `get_auth_token`: serve an unexpired cached token, else check
credentials (returning `None` without any network call when one is
missing), else perform the password-grant POST.  A raised exception or a
non-2xx status yields `None`; on a truthy `access_token` the cache entry is
rebuilt with `expires_at = now + (expires_in - 300)` and saved. -/
def get_auth_token (env : AuthEnv) (s : StorageState) : AuthResult :=
  let cache := get_token_cache s
  if cache_hit cache env.now then
    { token := cache.access_token, storage := s, calls := [] }
  else if check_credentials env.creds = false then
    { token := none, storage := s, calls := [] }
  else
    match env.auth_net with
    | .raises _ => { token := none, storage := s, calls := [.fullAuth] }
    | .responds status body =>
        if httpSuccess status = false then
          { token := none, storage := s, calls := [.fullAuth] }
        else
          let ei := coerce_expires_in body.expires_in
          if optTruthy body.access_token then
            let entry : TokenCacheEntry :=
              { access_token := body.access_token,
                refresh_token := body.refresh_token.join,
                expires_at := some (env.now + (ei - 300)) }
            { token := body.access_token,
              storage := do_save env.save_ok s entry,
              calls := [.fullAuth] }
          else
            { token := body.access_token, storage := s, calls := [.fullAuth] }

/-- Model of `refresh_auth_token`: with no truthy refresh token, delegate to
`get_auth_token`; otherwise POST the refresh grant.  Only a 200 response
carrying a truthy `access_token` refreshes the cache (keeping the old
refresh token when the key is absent from the response); every other
outcome, including a raised exception, falls back to `get_auth_token`. -/
def refresh_auth_token (env : AuthEnv) (s : StorageState) : AuthResult :=
  let cache := get_token_cache s
  if optTruthy cache.refresh_token = false then
    get_auth_token env s
  else
    match env.refresh_net with
    | .raises _ => prepend_call .refresh (get_auth_token env s)
    | .responds status body =>
        if status = 200 then
          let ei := coerce_expires_in body.expires_in
          if optTruthy body.access_token then
            let entry : TokenCacheEntry :=
              { access_token := body.access_token,
                refresh_token :=
                  match body.refresh_token with
                  | none => cache.refresh_token
                  | some v => v,
                expires_at := some (env.now + (ei - 300)) }
            { token := body.access_token,
              storage := do_save env.save_ok s entry,
              calls := [.refresh] }
          else
            prepend_call .refresh (get_auth_token env s)
        else
          prepend_call .refresh (get_auth_token env s)

/-- Model of `get_valid_token`: cached token if unexpired, else refresh if a
refresh token is present, else full authentication. -/
def get_valid_token (env : AuthEnv) (s : StorageState) : AuthResult :=
  let cache := get_token_cache s
  if cache_hit cache env.now then
    { token := cache.access_token, storage := s, calls := [] }
  else if optTruthy cache.refresh_token then
    refresh_auth_token env s
  else
    get_auth_token env s

/-- Refresh attempt failure as observed by `refresh_auth_token`: the POST
raised, or the status was not 200, or the body held no truthy
`access_token`. -/
def refresh_failed (env : AuthEnv) : Bool :=
  match env.refresh_net with
  | .raises _ => true
  | .responds status body => decide (status ≠ 200) || !optTruthy body.access_token

/-- Uppercasing model for `method.upper()`. -/
def pyUpper (s : String) : String := String.mk (s.data.map Char.toUpper)

/-- Outcome of one `client.get`/`client.post` to the news API: a raised
transport exception, or a response with a status code. -/
inductive ReqOutcome where
  | raises (e : String)
  | responds (status : Nat)

/-- World state a `make_authenticated_request` call runs in: the auth-layer
environment and request outcome for the first attempt, and (should a 401
force a retry) for the second token acquisition and second attempt. -/
structure MAEnv where
  auth1 : AuthEnv
  req1 : ReqOutcome
  auth2 : AuthEnv
  req2 : ReqOutcome

/-- Observable outcome of `make_authenticated_request`: the returned
response status or the propagated exception message, the bearer token of
each request attempt actually issued (in order), and the resulting cache
state. -/
structure MAResult where
  result : Except String Nat
  attempts : List String
  storage : StorageState

/-- Model of `make_authenticated_request`: resolve a token (raising when it
is falsy), validate the method, issue the request.  A raised transport
error propagates.  On a 401 response the cache file is cleared, a fresh
token is resolved (raising when falsy) and the request is reissued exactly
once with the new bearer token; its response — 401 included — is returned
as-is.  Any other status is returned directly. -/
def make_authenticated_request (env : MAEnv) (s : StorageState)
    (method : String) : MAResult :=
  let r1 := get_valid_token env.auth1 s
  if optTruthy r1.token = false then
    { result := .error "Unable to authenticate with news service",
      attempts := [], storage := r1.storage }
  else if !(pyUpper method == "GET" || pyUpper method == "POST") then
    { result := .error ("Unsupported HTTP method: " ++ method),
      attempts := [], storage := r1.storage }
  else
    let tok1 := r1.token.getD ""
    match env.req1 with
    | .raises e =>
        { result := .error e, attempts := [tok1], storage := r1.storage }
    | .responds st1 =>
        if st1 = 401 then
          let r2 := get_valid_token env.auth2 (clear_token_cache r1.storage)
          if optTruthy r2.token = false then
            { result := .error "Unable to re-authenticate with news service",
              attempts := [tok1], storage := r2.storage }
          else
            let tok2 := r2.token.getD ""
            match env.req2 with
            | .raises e =>
                { result := .error e, attempts := [tok1, tok2],
                  storage := r2.storage }
            | .responds st2 =>
                { result := .ok st2, attempts := [tok1, tok2],
                  storage := r2.storage }
        else
          { result := .ok st1, attempts := [tok1], storage := r1.storage }

/-- Boolean string-prefix test over the character data. -/
def strStarts (s p : String) : Bool := p.data.isPrefixOf s.data

/-- Message of the `HTTPStatusError` raised by `raise_for_status` (its text
is opaque to the claims; only its presence matters). -/
def status_error_message (status : Nat) : String :=
  "HTTPStatusError for status " ++ toString status

/-- JSON object that may carry a `"$"` key with a scalar payload (scalar
payloads are modelled as strings). -/
structure DollarObj where
  dollar : Option String

/-- One story envelope of the headlines response: the `storyId` key, and —
when the nested path `newsItem.itemMeta.title` exists — its list of title
objects. -/
structure HeadlineStory where
  storyId : Option String
  title : Option (List DollarObj)

/-- Parsed headlines response body: the `data` key, when present, holds the
story envelopes. -/
structure HeadlinesData where
  data : Option (List HeadlineStory)

/-- Simplification of one story envelope by `get_headlines`: `story_id`
defaults to `""`; the headline is the `"$"` payload of the first title
object when the title path exists, the list is non-empty and the key is
there, else `""`. -/
def simplify_story (st : HeadlineStory) : String × String :=
  let headline :=
    match st.title with
    | some (t :: _) =>
        match t.dollar with
        | some v => v
        | none => ""
    | _ => ""
  (st.storyId.getD "", headline)

/-- Simplified story list extracted from the headlines response (empty when
the `data` key is absent). -/
def simplify_stories (d : HeadlinesData) : List (String × String) :=
  match d.data with
  | some stories => stories.map simplify_story
  | none => []

/-- Rendering of `json.dumps` for one simplified headline record. -/
def dumps_headline (p : String × String) : String :=
  "\x7b\"story_id\": \"" ++ p.1 ++ "\", \"headline\": \"" ++ p.2 ++ "\"\x7d"

/-- Rendering of `json.dumps` for the simplified story list. -/
def dumps_stories (l : List (String × String)) : String :=
  "[" ++ String.intercalate ", " (l.map dumps_headline) ++ "]"

/-- Body of the `try` block of `get_headlines`: the authenticated request
(whose exceptions propagate into the block), `raise_for_status`, the JSON
parse of the body, then the total simplification. -/
def headlines_try_block (env : MAEnv) (s : StorageState)
    (body : Except String HeadlinesData) :
    Except String (List (String × String)) :=
  match (make_authenticated_request env s "GET").result with
  | .error e => .error e
  | .ok status =>
      if httpSuccess status = false then .error (status_error_message status)
      else
        match body with
        | .error e => .error e
        | .ok d => .ok (simplify_stories d)

/-- Model of the `get_headlines` tool: any exception raised inside the try
block is caught and rendered as `"Error fetching news: <cause>"`; otherwise
the simplified story list is dumped as JSON. -/
def get_headlines (env : MAEnv) (s : StorageState)
    (body : Except String HeadlinesData) : String :=
  match headlines_try_block env s body with
  | .ok stories => dumps_stories stories
  | .error e => "Error fetching news: " ++ e

/-- One entry of `contentSet.inlineData`: the `_contenttype` and `"$"`
keys, when present. -/
structure InlineEntry where
  contenttype : Option String
  dollar : Option String

/-- The `newsItem` object of a story response, at the granularity the code
reads it: each field is `some` exactly when the nested path the code guards
on exists. -/
structure NewsItemModel where
  headline : Option (List DollarObj)
  versionCreated : Option DollarObj
  urgency : Option DollarObj
  infoSource : Option (List (Option String))
  inlineData : Option (List InlineEntry)

/-- Parsed story response body: the `newsItem` key, when present. -/
structure StoryData where
  newsItem : Option NewsItemModel

/-- The flat record built by `get_news_story`. -/
structure SimplifiedStory where
  story_id : String
  headline : String
  publication_date : String
  urgency : String
  content_type : String
  content : String
  source : String

/-- Substring test over character data, modelling Python `"x" in y`. -/
def hasInfixChars (p : List Char) : List Char → Bool
  | [] => p.isPrefixOf []
  | c :: rest => p.isPrefixOf (c :: rest) || hasInfixChars p rest

/-- Model of the extraction in `get_news_story`.  Headline, source, content
type and content are fully guarded and never raise; the publication date
and urgency reads index `["$"]` without a guard, so a present
`versionCreated`/`urgency` object lacking the `"$"` key raises `KeyError`
(propagated to the surrounding try block). -/
def extract_story (storyId : String) (d : StoryData) :
    Except String SimplifiedStory :=
  let base : SimplifiedStory :=
    { story_id := storyId, headline := "", publication_date := "",
      urgency := "", content_type := "", content := "", source := "" }
  match d.newsItem with
  | none => .ok base
  | some ni =>
      let headline :=
        match ni.headline with
        | some (h :: _) =>
            match h.dollar with
            | some v => v
            | none => ""
        | _ => ""
      match ni.versionCreated with
      | some o =>
          match o.dollar with
          | none => .error "KeyError"
          | some pub => extract_story_rest storyId ni headline pub
      | none => extract_story_rest storyId ni headline ""
where
  /-- Continuation after the publication date: urgency (which may raise),
  then the guarded source and content extraction. -/
  extract_story_rest (storyId : String) (ni : NewsItemModel)
      (headline pub : String) : Except String SimplifiedStory :=
    match ni.urgency with
    | some o =>
        match o.dollar with
        | none => .error "KeyError"
        | some urg => .ok (extract_story_tail storyId ni headline pub urg)
    | none => .ok (extract_story_tail storyId ni headline pub "")
  /-- Guarded extraction of source, content type and content. -/
  extract_story_tail (storyId : String) (ni : NewsItemModel)
      (headline pub urg : String) : SimplifiedStory :=
    let source :=
      match ni.infoSource with
      | some (q :: _) => q.getD ""
      | _ => ""
    let ctPair :=
      match ni.inlineData with
      | some (e :: _) =>
          let ct := e.contenttype.getD ""
          if hasInfixChars "image".data ct.data then
            (ct, "Image content (binary data not included)")
          else
            (ct, e.dollar.getD "")
      | _ => ("", "")
    { story_id := storyId, headline := headline, publication_date := pub,
      urgency := urg, content_type := ctPair.1, content := ctPair.2,
      source := source }

/-- Rendering of `json.dumps` for the simplified story record. -/
def dumps_story (st : SimplifiedStory) : String :=
  "\x7b\"story_id\": \"" ++ st.story_id ++ "\", \"headline\": \"" ++
    st.headline ++ "\", \"publication_date\": \"" ++ st.publication_date ++
    "\", \"urgency\": \"" ++ st.urgency ++ "\", \"content_type\": \"" ++
    st.content_type ++ "\", \"content\": \"" ++ st.content ++
    "\", \"source\": \"" ++ st.source ++ "\"\x7d"

/-- Body of the `try` block of `get_news_story`: the authenticated request,
`raise_for_status`, the JSON parse, then the extraction (which itself may
raise `KeyError`). -/
def story_try_block (env : MAEnv) (s : StorageState) (storyId : String)
    (body : Except String StoryData) : Except String SimplifiedStory :=
  match (make_authenticated_request env s "GET").result with
  | .error e => .error e
  | .ok status =>
      if httpSuccess status = false then .error (status_error_message status)
      else
        match body with
        | .error e => .error e
        | .ok d => extract_story storyId d

/-- Model of the `get_news_story` tool: any exception raised inside the try
block is caught and rendered as `"Error fetching news by ID: <cause>"`. -/
def get_news_story (env : MAEnv) (s : StorageState) (storyId : String)
    (body : Except String StoryData) : String :=
  match story_try_block env s storyId body with
  | .ok st => dumps_story st
  | .error e => "Error fetching news by ID: " ++ e

/-- One tool-call request of an assistant message, as read by the relay
(`tool_call.get("name", "")`, `.get("args", ...)`, `.get("id", "")`). -/
structure ToolCallInfo where
  name : String
  args : String
  id : String
deriving DecidableEq

/-- Assistant message as observed by the relay: its `tool_calls` list and
its `content` (empty string when falsy). -/
structure AssistantMsg where
  tool_calls : List ToolCallInfo
  content : String

/-- Output of one graph node as iterated by `chunk.items()`: the
`assistant` node's messages, the `tools` node's message contents, or a node
matching neither branch. -/
inductive NodeOutput where
  | assistant (msgs : List AssistantMsg)
  | tools (msgs : List String)
  | other

/-- One reasoning-step record built by the relay (absent dict keys are
`none`). -/
structure Step where
  step : Nat
  type : String
  content : String
  tool_name : Option String
  args : Option String
  response : Option String
deriving DecidableEq

/-- Event sent over the WebSocket during one turn. -/
inductive Event where
  | thinking (content : String)
  | reasoningStep (step : Step)
  | finalComplete (response : String) (reasoning_steps : List Step)
      (tool_calls : List ToolCallInfo)
deriving DecidableEq

/-- Mutable state of the streaming loop: the step counter, the accumulated
`reasoning_steps` and `tool_calls` lists, the captured final response, and
the events sent so far (after the initial thinking event). -/
structure TurnState where
  stepCounter : Nat
  steps : List Step
  toolCalls : List ToolCallInfo
  finalResponse : String
  events : List Event

/-- Appending a step to `reasoning_steps` immediately followed by sending
it as a `reasoning_step` event. -/
def pushStep (st : TurnState) (p : Step) : TurnState :=
  { st with steps := st.steps ++ [p],
            events := st.events ++ [Event.reasoningStep p] }

/-- Processing of one tool-call request inside the assistant branch:
increment the counter, record the call, build and emit the `tool_call`
step. -/
def process_tool_call (st : TurnState) (tc : ToolCallInfo) : TurnState :=
  let n := st.stepCounter + 1
  pushStep
    { st with stepCounter := n, toolCalls := st.toolCalls ++ [tc] }
    { step := n, type := "tool_call",
      content := "Calling tool: " ++ tc.name,
      tool_name := some tc.name, args := some tc.args, response := none }

/-- Display copy of a tool response for the streamed event: the first 200
characters followed by `"..."` when the text is longer than 200 characters,
the text itself otherwise. -/
def display_response (c : String) : String :=
  if 200 < c.length then String.mk (c.data.take 200) ++ "..." else c

/-- The `tool_response` step record built from one tool message. -/
def tool_response_step (n : Nat) (content : String) : Step :=
  { step := n, type := "tool_response", content := "Tool response received",
    tool_name := none, args := none,
    response := some (display_response content) }

/-- Processing of one tool message in the tools branch: increment the
counter and emit the `tool_response` step.  The second component is the
message content as it remains in the graph state afterwards: the relay only
builds a display copy and never reassigns the message content, so the agent
loop keeps seeing the untruncated text. -/
def process_tool_message (st : TurnState) (content : String) :
    TurnState × String :=
  let n := st.stepCounter + 1
  (pushStep { st with stepCounter := n } (tool_response_step n content),
   content)

/-- Processing of one `(node_name, node_output)` item of a streamed chunk:
the per-item counter increment, then the assistant / tools branch. -/
def process_node (st : TurnState) (node : NodeOutput) : TurnState :=
  let st1 := { st with stepCounter := st.stepCounter + 1 }
  match node with
  | .assistant msgs =>
      match msgs.getLast? with
      | none => st1
      | some m =>
          if m.tool_calls ≠ [] then
            let st2 := pushStep st1
              { step := st1.stepCounter, type := "reasoning",
                content := "AI is planning to use " ++
                  toString m.tool_calls.length ++ " tool(s)",
                tool_name := none, args := none, response := none }
            m.tool_calls.foldl process_tool_call st2
          else if m.content ≠ "" then
            let fr := if st1.finalResponse = "" then m.content
                      else st1.finalResponse
            pushStep { st1 with finalResponse := fr }
              { step := st1.stepCounter, type := "final_response",
                content := "AI has generated final response",
                tool_name := none, args := none, response := none }
          else st1
  | .tools msgs =>
      msgs.foldl (fun acc c => (process_tool_message acc c).1) st1
  | .other => st1

/-- Initial streaming state of a turn. -/
def initTurnState : TurnState :=
  { stepCounter := 0, steps := [], toolCalls := [], finalResponse := "",
    events := [] }

/-- State after folding the whole stream of node outputs (the stream of
`graph.astream` chunks, flattened in order through `chunk.items()`). -/
def turn_state (nodes : List NodeOutput) : TurnState :=
  nodes.foldl process_node initTurnState

/-- The fixed fallback apology of the terminal event. -/
def apology_text : String :=
  "I apologize, but I wasn't able to generate a response."

/-- Full event sequence of one successfully completed WebSocket turn: the
initial thinking event, the streamed reasoning steps, then the single
terminal `final_complete` event carrying `final_response or <apology>`, the
accumulated `reasoning_steps` and the accumulated `tool_calls`. -/
def run_turn (nodes : List NodeOutput) : List Event :=
  let st := turn_state nodes
  Event.thinking "🤔 AI is analyzing your request..." ::
    st.events ++
    [Event.finalComplete
      (if st.finalResponse = "" then apology_text else st.finalResponse)
      st.steps st.toolCalls]

/-- Discriminator for the terminal event. -/
def isFinalComplete : Event → Bool
  | .finalComplete _ _ _ => true
  | _ => false

/-- C7: the token-cache load operation never raises — for every storage
state, including a missing file or contents that cannot be read or parsed,
it returns `.ok`; on missing or corrupt storage the returned entry has
`access_token`, `expires_at` and `refresh_token` all `None`.  The save
operation never raises either: a failed write is absorbed, leaving the
stored state unchanged. -/
theorem C7_cache_io_never_raises :
    (∀ s : StorageState, ∃ entry, load_token_cache s = .ok entry) ∧
    load_token_cache .missing = .ok empty_entry ∧
    load_token_cache .corrupt = .ok empty_entry ∧
    empty_entry.access_token = none ∧
    empty_entry.expires_at = none ∧
    empty_entry.refresh_token = none ∧
    (∀ (write_ok : Bool) (s : StorageState) (entry : TokenCacheEntry),
      ∃ s2, save_token_cache write_ok s entry = .ok s2) ∧
    (∀ (s : StorageState) (entry : TokenCacheEntry),
      save_token_cache false s entry = .ok s) := by
  refine ⟨?_, rfl, rfl, rfl, rfl, rfl, ?_, ?_⟩
  · intro s; cases s <;> exact ⟨_, rfl⟩
  · intro write_ok s entry; cases write_ok <;> exact ⟨_, rfl⟩
  · intro s entry; rfl

/-- C3: whenever the loaded cache has no `expires_at`, or an `expires_at`
not strictly after the current time, or a falsy `access_token`, the
cache-hit test fails and `get_valid_token` proceeds to the refresh path or
to full authentication; an expired token is never returned by the cache-hit
branch. -/
theorem C3_expired_token_never_served (env : AuthEnv) (s : StorageState) :
    ((get_token_cache s).expires_at = none ∨
      (∃ t, (get_token_cache s).expires_at = some t ∧ t ≤ env.now) ∨
      optTruthy (get_token_cache s).access_token = false) →
    cache_hit (get_token_cache s) env.now = false ∧
    get_valid_token env s =
      (if optTruthy (get_token_cache s).refresh_token then
        refresh_auth_token env s
       else get_auth_token env s) := by
  intro h
  have hch : cache_hit (get_token_cache s) env.now = false := by
    rcases h with h | ⟨t, ht, hle⟩ | h
    · simp [cache_hit, h]
    · simp [cache_hit, ht]
      intro
      omega
    · simp [cache_hit, h]
  refine ⟨hch, ?_⟩
  simp only [get_valid_token, hch, if_false, Bool.false_eq_true]

/-- C10 (implicit): the cache-hit path of `get_valid_token` does not check
credentials — with all three environment credentials unset, a cache state
holding a truthy `access_token` with `expires_at` in the future is still
served, with no network call; the credential check sits only inside the
full-authentication path, which runs after a cache miss and then reports
`None` with no network call. -/
theorem C10_cache_hit_skips_credential_check (now : Int) (s : StorageState)
    (save_ok : Bool) (anet rnet : NetOutcome) :
    (cache_hit (get_token_cache s) now = true →
      get_valid_token
        { now := now,
          creds := { username := none, password := none, client_id := none },
          save_ok := save_ok, auth_net := anet, refresh_net := rnet } s =
        { token := (get_token_cache s).access_token, storage := s,
          calls := [] }) ∧
    (cache_hit (get_token_cache s) now = false →
      get_auth_token
        { now := now,
          creds := { username := none, password := none, client_id := none },
          save_ok := save_ok, auth_net := anet, refresh_net := rnet } s =
        { token := none, storage := s, calls := [] }) := by
  constructor
  · intro h
    simp only [get_valid_token, h, if_true]
  · intro h
    simp only [get_auth_token, h, Bool.false_eq_true, if_false]
    norm_num [check_credentials, optTruthy]

/-- C6: when any of the three configured credentials is missing,
`check_credentials` reports `False` and the full-authentication path (run
on a cache miss) returns `None` — not an exception — with no network
call. -/
theorem C6_missing_credentials_no_network (env : AuthEnv) (s : StorageState) :
    (check_credentials env.creds = false ↔
      (optTruthy env.creds.username = false ∨
       optTruthy env.creds.password = false ∨
       optTruthy env.creds.client_id = false)) ∧
    (cache_hit (get_token_cache s) env.now = false →
      check_credentials env.creds = false →
      get_auth_token env s = { token := none, storage := s, calls := [] }) := by
  constructor
  · cases hu : optTruthy env.creds.username <;>
      cases hp : optTruthy env.creds.password <;>
        cases hc : optTruthy env.creds.client_id <;>
          simp [check_credentials, hu, hp, hc]
  · intro hmiss hcred
    simp only [get_auth_token, hmiss, Bool.false_eq_true, if_false, hcred,
      if_true]

/-- C1: on every `get_valid_token` call the three token-acquisition paths
are evaluated in fixed priority order — a valid cached token is returned
with no network call; otherwise, when the cache holds a truthy refresh
token, the call delegates to `refresh_auth_token`, and any refresh failure
(exception, non-200 status, or missing access token in the response) falls
through to full re-authentication instead of surfacing; otherwise full
authentication runs. -/
theorem C1_token_path_priority (env : AuthEnv) (s : StorageState) :
    (cache_hit (get_token_cache s) env.now = true →
      get_valid_token env s =
        { token := (get_token_cache s).access_token, storage := s,
          calls := [] }) ∧
    (cache_hit (get_token_cache s) env.now = false →
      optTruthy (get_token_cache s).refresh_token = true →
      get_valid_token env s = refresh_auth_token env s ∧
      (refresh_failed env = true →
        refresh_auth_token env s =
          prepend_call .refresh (get_auth_token env s))) ∧
    (cache_hit (get_token_cache s) env.now = false →
      optTruthy (get_token_cache s).refresh_token = false →
      get_valid_token env s = get_auth_token env s) := by
  refine ⟨?_, ?_, ?_⟩
  · intro h
    simp only [get_valid_token, h, if_true]
  · intro h hr
    constructor
    · simp only [get_valid_token, h, Bool.false_eq_true, if_false, hr,
        if_true]
    · intro hf
      unfold refresh_auth_token
      simp only [hr, Bool.true_eq_false, if_false]
      cases henv : env.refresh_net with
      | raises e => simp
      | responds status body =>
        simp only [refresh_failed, henv] at hf
        by_cases h200 : status = 200
        · subst h200
          simp only [decide_not, Bool.or_eq_true, Bool.not_eq_true',
            decide_eq_true_eq] at hf
          rcases hf with hf | hf
          · simp at hf
          · simp [hf]
        · simp [h200]
  · intro h hr
    simp only [get_valid_token, h, Bool.false_eq_true, if_false, hr]

/-- C5: every successful acquisition — a 2xx password-grant response or a
200 refresh response whose body carries a truthy access token — stores
`expires_at = now + (coerced expires_in - 300)` and persists the entry via
the token cache; the coercion takes an integer as-is, parses an integer
string, and falls back to the default 3600 when the value is absent, is an
unparsable string, or is not int-coercible. -/
theorem C5_expiry_normalization (env : AuthEnv) (s : StorageState) :
    (∀ status body, env.auth_net = .responds status body →
      cache_hit (get_token_cache s) env.now = false →
      check_credentials env.creds = true →
      httpSuccess status = true →
      optTruthy body.access_token = true →
      get_auth_token env s =
        { token := body.access_token,
          storage := do_save env.save_ok s
            { access_token := body.access_token,
              refresh_token := body.refresh_token.join,
              expires_at :=
                some (env.now + (coerce_expires_in body.expires_in - 300)) },
          calls := [.fullAuth] }) ∧
    (∀ status body, env.refresh_net = .responds status body →
      optTruthy (get_token_cache s).refresh_token = true →
      status = 200 →
      optTruthy body.access_token = true →
      refresh_auth_token env s =
        { token := body.access_token,
          storage := do_save env.save_ok s
            { access_token := body.access_token,
              refresh_token :=
                (match body.refresh_token with
                 | none => (get_token_cache s).refresh_token
                 | some v => v),
              expires_at :=
                some (env.now + (coerce_expires_in body.expires_in - 300)) },
          calls := [.refresh] }) ∧
    coerce_expires_in none = 3600 ∧
    (∀ n : Int, coerce_expires_in (some (.jint n)) = n) ∧
    (∀ str, pyParseInt str = none →
      coerce_expires_in (some (.jstr str)) = 3600) ∧
    (∀ str n, pyParseInt str = some n →
      coerce_expires_in (some (.jstr str)) = n) ∧
    coerce_expires_in (some .jnull) = 3600 ∧
    coerce_expires_in (some .jother) = 3600 := by
  refine ⟨?_, ?_, rfl, fun n => rfl, ?_, ?_, rfl, rfl⟩
  · intro status body hnet hmiss hcred hok htok
    simp only [get_auth_token, hmiss, Bool.false_eq_true, if_false, hcred,
      Bool.true_eq_false, hnet, hok, htok, if_true]
  · intro status body hnet hr h200 htok
    subst h200
    simp only [refresh_auth_token, hr, Bool.true_eq_false, if_false, hnet,
      htok, if_true, reduceIte]
  · intro str h
    simp [coerce_expires_in, h]
  · intro str n h
    simp [coerce_expires_in, h]

/-- C2: through `make_authenticated_request` (with a truthy first token and
a supported method), a first 401 response clears the cache, resolves a
fresh token against the now-empty cache and retries exactly once with that
new bearer token, returning the second response — a second 401 included —
unmodified; any non-401 first response is returned with a single attempt
and no retry; a transport exception on the first attempt propagates with no
retry. -/
theorem C2_401_single_retry (env : MAEnv) (s : StorageState)
    (method : String) :
    optTruthy (get_valid_token env.auth1 s).token = true →
    (pyUpper method = "GET" ∨ pyUpper method = "POST") →
    ((∀ st1, env.req1 = .responds st1 → st1 = 401 →
        optTruthy (get_valid_token env.auth2 .missing).token = true →
        ∀ st2, env.req2 = .responds st2 →
          make_authenticated_request env s method =
            { result := .ok st2,
              attempts := [(get_valid_token env.auth1 s).token.getD "",
                           (get_valid_token env.auth2 .missing).token.getD ""],
              storage := (get_valid_token env.auth2 .missing).storage }) ∧
     (∀ st1, env.req1 = .responds st1 → st1 ≠ 401 →
        make_authenticated_request env s method =
          { result := .ok st1,
            attempts := [(get_valid_token env.auth1 s).token.getD ""],
            storage := (get_valid_token env.auth1 s).storage }) ∧
     (∀ e, env.req1 = .raises e →
        make_authenticated_request env s method =
          { result := .error e,
            attempts := [(get_valid_token env.auth1 s).token.getD ""],
            storage := (get_valid_token env.auth1 s).storage })) := by
  intro htok hmeth
  have hm : (pyUpper method == "GET" || pyUpper method == "POST") = true := by
    rcases hmeth with h | h <;> simp [h]
  refine ⟨?_, ?_, ?_⟩
  · intro st1 hreq1 h401 htok2 st2 hreq2
    subst h401
    simp only [make_authenticated_request, htok, Bool.true_eq_false,
      if_false, hm, Bool.not_true, hreq1, reduceIte, clear_token_cache,
      htok2, hreq2]
    simp
  · intro st1 hreq1 h401
    simp only [make_authenticated_request, htok, Bool.true_eq_false,
      if_false, hm, Bool.not_true, hreq1, h401, reduceIte]
    simp
  · intro e hreq1
    simp only [make_authenticated_request, htok, Bool.true_eq_false,
      if_false, hm, Bool.not_true, hreq1]
    simp

/-- A concatenation starts with its left part. -/
theorem strStarts_append (p e : String) : strStarts (p ++ e) p = true := by
  simp [strStarts, String.data_append, List.isPrefixOf_iff_prefix]

/-- Environment with no credentials and an unreachable network, under which
both token-acquisition paths fail and `make_authenticated_request`
raises. -/
def sample_fail_auth_env : AuthEnv :=
  { now := 0,
    creds := { username := none, password := none, client_id := none },
    save_ok := true, auth_net := .raises "down", refresh_net := .raises "down" }

/-- Request environment built on `sample_fail_auth_env`. -/
def sample_fail_ma_env : MAEnv :=
  { auth1 := sample_fail_auth_env, req1 := .responds 500,
    auth2 := sample_fail_auth_env, req2 := .responds 500 }

/-- C4, counterexample: on an input whose network call raises (no token
obtainable, so `make_authenticated_request` raises inside the tool's try
block), `get_news_story` does catch the exception, but its result starts
with `"Error fetching news by ID: "` and therefore does not start with
`"Error fetching news:"` as the claim states for both tools. -/
theorem C4_news_story_wrong_text :
    story_try_block sample_fail_ma_env .missing "urn:a"
        (.ok { newsItem := none }) =
      .error "Unable to authenticate with news service" ∧
    get_news_story sample_fail_ma_env .missing "urn:a"
        (.ok { newsItem := none }) =
      "Error fetching news by ID: Unable to authenticate with news service" ∧
    strStarts
      (get_news_story sample_fail_ma_env .missing "urn:a"
        (.ok { newsItem := none }))
      "Error fetching news:" = false := by
  refine ⟨rfl, rfl, by decide⟩

/-- C4, amended: any exception raised by a tool's network call or response
parsing is caught and converted to a textual result instead of raising —
`get_headlines` returns `"Error fetching news: <cause>"`, while
`get_news_story` returns `"Error fetching news by ID: <cause>"`. -/
theorem C4_tool_errors_are_text (envH envS : MAEnv) (sH sS : StorageState)
    (bodyH : Except String HeadlinesData) (sid : String)
    (bodyS : Except String StoryData) :
    (∀ e, headlines_try_block envH sH bodyH = .error e →
      get_headlines envH sH bodyH = "Error fetching news: " ++ e ∧
      strStarts (get_headlines envH sH bodyH) "Error fetching news: " =
        true) ∧
    (∀ e, story_try_block envS sS sid bodyS = .error e →
      get_news_story envS sS sid bodyS = "Error fetching news by ID: " ++ e ∧
      strStarts (get_news_story envS sS sid bodyS)
        "Error fetching news by ID: " = true) := by
  constructor
  · intro e h
    have hv : get_headlines envH sH bodyH = "Error fetching news: " ++ e := by
      simp [get_headlines, h]
    exact ⟨hv, by rw [hv]; exact strStarts_append _ _⟩
  · intro e h
    have hv : get_news_story envS sS sid bodyS =
        "Error fetching news by ID: " ++ e := by
      simp [get_news_story, h]
    exact ⟨hv, by rw [hv]; exact strStarts_append _ _⟩

/-- Witness for the amended C4 at a concrete failing input. -/
theorem C4_tool_errors_are_text_witness :
    get_headlines sample_fail_ma_env .missing (.ok { data := none }) =
      "Error fetching news: Unable to authenticate with news service" ∧
    get_news_story sample_fail_ma_env .missing "urn:a"
        (.ok { newsItem := none }) =
      "Error fetching news by ID: Unable to authenticate with news service" :=
  ⟨((C4_tool_errors_are_text sample_fail_ma_env sample_fail_ma_env .missing
      .missing (.ok { data := none }) "urn:a" (.ok { newsItem := none })).1
      "Unable to authenticate with news service" rfl).1,
   ((C4_tool_errors_are_text sample_fail_ma_env sample_fail_ma_env .missing
      .missing (.ok { data := none }) "urn:a" (.ok { newsItem := none })).2
      "Unable to authenticate with news service" rfl).1⟩

/-- C8: the streamed `tool_response` event carries the tool's result text
unchanged when it is at most 200 characters long, and its first 200
characters followed by `"..."` when longer; the truncation produces only
the display copy inside the event — the message content retained for the
agent loop is the untruncated text. -/
theorem C8_tool_response_display_cap (st : TurnState) (n : Nat)
    (c : String) :
    (tool_response_step n c).response = some (display_response c) ∧
    (c.length ≤ 200 → (tool_response_step n c).response = some c) ∧
    (200 < c.length →
      (tool_response_step n c).response =
        some (String.mk (c.data.take 200) ++ "...")) ∧
    (process_tool_message st c).2 = c := by
  refine ⟨rfl, ?_, ?_, rfl⟩
  · intro h
    simp [tool_response_step, display_response, Nat.not_lt.mpr h]
  · intro h
    simp [tool_response_step, display_response, h]

/-- Tool result text of 201 characters, used as a truncation witness. -/
def long_tool_text : String := String.mk (List.replicate 201 'a')

/-- Witness for C8 at concrete short and long tool results. -/
theorem C8_tool_response_display_cap_witness :
    (tool_response_step 1 "ok").response = some "ok" ∧
    (tool_response_step 2 long_tool_text).response =
      some (String.mk (long_tool_text.data.take 200) ++ "...") :=
  ⟨(C8_tool_response_display_cap initTurnState 1 "ok").2.1 (by decide),
   (C8_tool_response_display_cap initTurnState 2 long_tool_text).2.2.1
     (by decide)⟩

/-- Appending a step keeps the sent events aligned with the accumulated
`reasoning_steps` list. -/
theorem pushStep_events (st : TurnState) (p : Step)
    (h : st.events = st.steps.map Event.reasoningStep) :
    (pushStep st p).events = (pushStep st p).steps.map Event.reasoningStep := by
  simp [pushStep, h]

/-- Processing a tool call preserves the event/step alignment. -/
theorem process_tool_call_events (st : TurnState) (tc : ToolCallInfo)
    (h : st.events = st.steps.map Event.reasoningStep) :
    (process_tool_call st tc).events =
      (process_tool_call st tc).steps.map Event.reasoningStep := by
  unfold process_tool_call
  exact pushStep_events _ _ h

/-- Folding the tool calls of one assistant message preserves the
alignment. -/
theorem foldl_process_tool_call_events (l : List ToolCallInfo)
    (st : TurnState)
    (h : st.events = st.steps.map Event.reasoningStep) :
    (l.foldl process_tool_call st).events =
      (l.foldl process_tool_call st).steps.map Event.reasoningStep := by
  induction l generalizing st with
  | nil => exact h
  | cons a t ih => exact ih _ (process_tool_call_events _ _ h)

/-- Processing one tool message preserves the alignment. -/
theorem process_tool_message_events (st : TurnState) (c : String)
    (h : st.events = st.steps.map Event.reasoningStep) :
    (process_tool_message st c).1.events =
      (process_tool_message st c).1.steps.map Event.reasoningStep := by
  unfold process_tool_message
  exact pushStep_events _ _ h

/-- Folding the messages of one tools-node output preserves the
alignment. -/
theorem foldl_process_tool_message_events (l : List String) (st : TurnState)
    (h : st.events = st.steps.map Event.reasoningStep) :
    ((l.foldl (fun acc c => (process_tool_message acc c).1) st)).events =
      ((l.foldl (fun acc c => (process_tool_message acc c).1) st)).steps.map
        Event.reasoningStep := by
  induction l generalizing st with
  | nil => exact h
  | cons a t ih => exact ih _ (process_tool_message_events _ _ h)

/-- Processing one node output preserves the alignment. -/
theorem process_node_events (st : TurnState) (node : NodeOutput)
    (h : st.events = st.steps.map Event.reasoningStep) :
    (process_node st node).events =
      (process_node st node).steps.map Event.reasoningStep := by
  cases node with
  | assistant msgs =>
      unfold process_node
      cases hm : msgs.getLast? with
      | none => simp only [hm]; exact h
      | some m =>
          simp only [hm]
          split
          · exact foldl_process_tool_call_events _ _ (pushStep_events _ _ h)
          · split
            · exact pushStep_events _ _ h
            · exact h
  | tools msgs =>
      unfold process_node
      exact foldl_process_tool_message_events _ _ h
  | other => exact h

/-- During one turn every event sent between the thinking event and the
terminal event is a `reasoning_step` event, and they mirror the
accumulated `reasoning_steps` list in order. -/
theorem turn_state_events (nodes : List NodeOutput) :
    (turn_state nodes).events =
      (turn_state nodes).steps.map Event.reasoningStep := by
  have key : ∀ (l : List NodeOutput) (st : TurnState),
      st.events = st.steps.map Event.reasoningStep →
      (l.foldl process_node st).events =
        (l.foldl process_node st).steps.map Event.reasoningStep := by
    intro l
    induction l with
    | nil => intro st h; exact h
    | cons a t ih => intro st h; exact ih _ (process_node_events _ _ h)
  exact key nodes initTurnState rfl

/-- A turn's event sequence — the thinking event, then only
`reasoning_step` events, then the terminal event — holds exactly one
terminal event. -/
theorem count_terminal (t : String) (l : List Step) (r : String)
    (steps : List Step) (tcs : List ToolCallInfo) :
    (List.filter isFinalComplete
      (Event.thinking t :: (l.map Event.reasoningStep ++
        [Event.finalComplete r steps tcs]))).length = 1 := by
  induction l with
  | nil => rfl
  | cons a t2 ih => simp [List.filter_cons, isFinalComplete]

/-- C9: every successfully completed turn ends with exactly one terminal
`final_complete` event; it carries the full ordered list of emitted
reasoning steps and the full tool-call list, and when the turn produced no
final content its response field is the fixed fallback apology rather than
empty text. -/
theorem C9_single_terminal_event (nodes : List NodeOutput) :
    (run_turn nodes).getLast? =
      some (.finalComplete
        (if (turn_state nodes).finalResponse = "" then apology_text
         else (turn_state nodes).finalResponse)
        (turn_state nodes).steps (turn_state nodes).toolCalls) ∧
    ((run_turn nodes).filter isFinalComplete).length = 1 ∧
    (turn_state nodes).events =
      (turn_state nodes).steps.map Event.reasoningStep ∧
    ((turn_state nodes).finalResponse = "" →
      (run_turn nodes).getLast? =
        some (.finalComplete apology_text (turn_state nodes).steps
          (turn_state nodes).toolCalls)) := by
  have hlast : (run_turn nodes).getLast? =
      some (.finalComplete
        (if (turn_state nodes).finalResponse = "" then apology_text
         else (turn_state nodes).finalResponse)
        (turn_state nodes).steps (turn_state nodes).toolCalls) := by
    simp only [run_turn]
    exact List.getLast?_concat _
  refine ⟨hlast, ?_, turn_state_events nodes, ?_⟩
  · simp only [run_turn]
    rw [turn_state_events nodes]
    exact count_terminal _ _ _ _ _
  · intro h
    rw [hlast, h]
    simp

/-- Witness for C9: a turn whose stream produced no content ends with the
terminal event carrying the fallback apology. -/
theorem C9_single_terminal_event_witness :
    (run_turn []).getLast? =
      some (.finalComplete apology_text (turn_state []).steps
        (turn_state []).toolCalls) :=
  (C9_single_terminal_event []).2.2.2 rfl

/-- Working credentials for witnesses. -/
def sample_creds : Creds :=
  { username := some "u", password := some "p", client_id := some "c" }

/-- Successful password-grant response for witnesses. -/
def sample_net_ok : NetOutcome :=
  .responds 200
    { access_token := some "newtok", expires_in := some (.jint 7200),
      refresh_token := some (some "newref") }

/-- Environment whose full authentication succeeds and whose refresh call
raises. -/
def sample_auth_env : AuthEnv :=
  { now := 0, creds := sample_creds, save_ok := true,
    auth_net := sample_net_ok, refresh_net := .raises "refresh down" }

/-- Cache state holding a valid unexpired token. -/
def sample_hit_storage : StorageState :=
  .present { access_token := some "tok1", expires_at := some 100,
             refresh_token := none }

/-- Cache state holding only a refresh token. -/
def sample_refresh_storage : StorageState :=
  .present { access_token := none, expires_at := none,
             refresh_token := some "ref1" }

/-- Witness for C1 at concrete cache states: a cache hit is served
directly; with only a refresh token and a raising refresh call, the result
is the refresh call followed by full authentication; with an empty cache
the call goes straight to full authentication. -/
theorem C1_token_path_priority_witness :
    get_valid_token sample_auth_env sample_hit_storage =
      { token := some "tok1", storage := sample_hit_storage, calls := [] } ∧
    get_valid_token sample_auth_env sample_refresh_storage =
      refresh_auth_token sample_auth_env sample_refresh_storage ∧
    refresh_auth_token sample_auth_env sample_refresh_storage =
      prepend_call .refresh
        (get_auth_token sample_auth_env sample_refresh_storage) ∧
    get_valid_token sample_auth_env .missing =
      get_auth_token sample_auth_env .missing :=
  ⟨(C1_token_path_priority sample_auth_env sample_hit_storage).1 (by decide),
   ((C1_token_path_priority sample_auth_env sample_refresh_storage).2.1
     (by decide) (by decide)).1,
   ((C1_token_path_priority sample_auth_env sample_refresh_storage).2.1
     (by decide) (by decide)).2 (by decide),
   (C1_token_path_priority sample_auth_env .missing).2.2 (by decide)
     (by decide)⟩

/-- Request environment whose both attempts answer 401, on top of a cache
hit for the first token and a working full authentication for the
second. -/
def sample_ma_401_env : MAEnv :=
  { auth1 := sample_auth_env, req1 := .responds 401,
    auth2 := sample_auth_env, req2 := .responds 401 }

/-- Entry cached by a successful `sample_net_ok` full authentication at
time 0: `expires_at = 0 + (7200 - 300)`. -/
def sample_saved_entry : TokenCacheEntry :=
  { access_token := some "newtok", expires_at := some 6900,
    refresh_token := some "newref" }

/-- Witness for C2: two consecutive 401 responses produce exactly two
attempts — the second with the freshly acquired token — and the second 401
is returned unmodified. -/
theorem C2_401_single_retry_witness :
    make_authenticated_request sample_ma_401_env sample_hit_storage "GET" =
      { result := .ok 401, attempts := ["tok1", "newtok"],
        storage := .present sample_saved_entry } :=
  (C2_401_single_retry sample_ma_401_env sample_hit_storage "GET" (by decide)
    (Or.inl (by decide))).1 401 rfl rfl (by decide) 401 rfl

/-- Witness for C3 at a concrete empty cache. -/
theorem C3_expired_token_never_served_witness :
    cache_hit (get_token_cache .missing) sample_auth_env.now = false ∧
    get_valid_token sample_auth_env .missing =
      (if optTruthy (get_token_cache .missing).refresh_token then
        refresh_auth_token sample_auth_env .missing
       else get_auth_token sample_auth_env .missing) :=
  C3_expired_token_never_served sample_auth_env .missing (Or.inl rfl)

/-- Environment whose refresh call answers 200 with a string
`expires_in`. -/
def sample_refresh_ok_env : AuthEnv :=
  { now := 0, creds := sample_creds, save_ok := true,
    auth_net := .raises "down",
    refresh_net := .responds 200
      { access_token := some "rtok", expires_in := some (.jstr "3000"),
        refresh_token := none } }

/-- Entry cached by a successful `sample_refresh_ok_env` refresh at time 0:
`expires_at = 0 + (3000 - 300)`, old refresh token kept. -/
def sample_refreshed_entry : TokenCacheEntry :=
  { access_token := some "rtok", expires_at := some 2700,
    refresh_token := some "ref1" }

/-- Witness for C5: a full authentication with integer `expires_in` 7200
caches `expires_at = 0 + (7200 - 300)`; a refresh with string `expires_in`
"3000" parses it and keeps the old refresh token; an unparsable string
falls back to 3600. -/
theorem C5_expiry_normalization_witness :
    get_auth_token sample_auth_env .missing =
      { token := some "newtok",
        storage := .present sample_saved_entry,
        calls := [.fullAuth] } ∧
    refresh_auth_token sample_refresh_ok_env sample_refresh_storage =
      { token := some "rtok",
        storage := .present sample_refreshed_entry,
        calls := [.refresh] } ∧
    coerce_expires_in (some (.jstr "soon")) = 3600 :=
  ⟨(C5_expiry_normalization sample_auth_env .missing).1 200 _ rfl (by decide)
     (by decide) (by decide) (by decide),
   (C5_expiry_normalization sample_refresh_ok_env sample_refresh_storage).2.1
     200 _ rfl (by decide) rfl (by decide),
   (C5_expiry_normalization sample_auth_env .missing).2.2.2.2.1 "soon" rfl⟩

/-- Environment with no credentials at all. -/
def sample_no_creds_env : AuthEnv :=
  { now := 0,
    creds := { username := none, password := none, client_id := none },
    save_ok := true, auth_net := .raises "down",
    refresh_net := .raises "down" }

/-- Witness for C6 at a concrete credential-less environment. -/
theorem C6_missing_credentials_no_network_witness :
    check_credentials sample_no_creds_env.creds = false ∧
    get_auth_token sample_no_creds_env .missing =
      { token := none, storage := .missing, calls := [] } :=
  ⟨((C6_missing_credentials_no_network sample_no_creds_env .missing).1).mpr
     (Or.inl (by decide)),
   (C6_missing_credentials_no_network sample_no_creds_env .missing).2
     (by decide) (by decide)⟩

/-- Witness for C10: with every credential unset, a valid cached token is
still served with no network call, while a cache miss makes the
full-authentication path return `None` with no network call. -/
theorem C10_cache_hit_skips_credential_check_witness :
    get_valid_token sample_no_creds_env sample_hit_storage =
      { token := some "tok1", storage := sample_hit_storage, calls := [] } ∧
    get_auth_token sample_no_creds_env .missing =
      { token := none, storage := .missing, calls := [] } :=
  ⟨(C10_cache_hit_skips_credential_check 0 sample_hit_storage true
      (.raises "down") (.raises "down")).1 (by decide),
   (C10_cache_hit_skips_credential_check 0 .missing true (.raises "down")
      (.raises "down")).2 (by decide)⟩

end NewsMCP
